import Mathlib

/-!
Verification of the Judge/Charge sentencing dashboard (src/app.py).

Shallow embedding conventions:
* A pandas numeric cell is `Option ℚ`: `none` stands for a value that
  `pd.to_numeric(..., errors = coerce)` turns into NaN (a missing cell or an
  uncoercible string); `some q` stands for a cell that coerces to `q`.
* A pandas text cell is `Option String`: `none` is NaN.  `astype(str).str.strip()`
  turns NaN into the literal string "nan" and trims every other value; this is
  `cleanText` below.
* Column presence is uniform across a DataFrame, so the columns whose presence
  `load_data` branches on are tracked as `Bool` flags in `RawCols`, one flag
  per `if col in df.columns` test in the source.  The remaining columns the
  dashboard reads (CaseNumber, ChargeOffenseDescription, Statute, Race_Tier_1,
  Gender, DispositionDescription) are modelled as always present with nullable
  cells, which is the shape of every table the dashboard is written for.
* `.round(1)` / `.round({col: 0})` use numpy's round-half-to-even; it is
  modelled as exact half-to-even on rationals.
* `sort_values(ascending = False).head(n)` and `value_counts().head(n)` are
  modelled as a stable insertion sort by descending count over the group list
  followed by `take n`; pandas leaves the relative order of tied counts
  unspecified, and no claim depends on tie order.
-/

namespace JudgeDispo

/-- One raw CSV row: the cells of the columns `load_data` reads.  Numeric cells
are the post-`to_numeric` view (`none` = NaN or uncoercible). -/
structure RawRow where
  caseNumber : Option String
  judge : Option String
  judgeFirstName : Option String
  judgeMiddleInitial : Option String
  judgeLastName : Option String
  chargeOffenseDescription : Option String
  statute : Option String
  statuteDescription : Option String
  dispositionDescription : Option String
  raceTier1 : Option String
  gender : Option String
  maxCnfmntDays : Option ℚ
  probationDays : Option ℚ
  probationMths : Option ℚ
  probationYrs : Option ℚ
  comCntrlDays : Option ℚ
  comCntrlMths : Option ℚ
  comCntrlYrs : Option ℚ
  communityService : Option ℚ
deriving DecidableEq

/-- Which of the conditionally-read columns are present in the DataFrame,
one flag per `if col in df.columns` test in `load_data`. -/
structure RawCols where
  maxCnfmntDays : Bool
  probationDays : Bool
  probationMths : Bool
  probationYrs : Bool
  comCntrlDays : Bool
  comCntrlMths : Bool
  comCntrlYrs : Bool
  communityService : Bool
  judge : Bool
  judgeFirstName : Bool
  judgeMiddleInitial : Bool
  judgeLastName : Bool
deriving DecidableEq

/-- Python `str.strip()`: drop leading and trailing whitespace.  Defined
structurally over the character list so concrete instances reduce inside the
kernel; `Char.isWhitespace` plays the role of Python's whitespace class. -/
def stripStr (s : String) : String :=
  ⟨((s.data.dropWhile Char.isWhitespace).reverse.dropWhile Char.isWhitespace).reverse⟩

/-- `astype(str).str.strip()` on one cell: NaN prints as "nan", other values
are trimmed of surrounding whitespace. -/
def cleanText : Option String → String
  | none => "nan"
  | some s => stripStr s

/-- `pd.to_numeric(col, errors = coerce).fillna(0)` on one cell. -/
def coerceFill (cell : Option ℚ) : ℚ := cell.getD 0

/-- `Jail_Days`: from `MaxCnfmnt_Days` when that column exists, else 0
(app.py lines 74-77). -/
def jailDaysOf (cols : RawCols) (row : RawRow) : ℚ :=
  if cols.maxCnfmntDays then coerceFill row.maxCnfmntDays else 0

/-- `Probation_Days_Clean`: days column first, else months × 30, else
years × 365, else 0 — priority is on column presence (app.py lines 80-87). -/
def probationDaysCleanOf (cols : RawCols) (row : RawRow) : ℚ :=
  if cols.probationDays then coerceFill row.probationDays
  else if cols.probationMths then coerceFill row.probationMths * 30
  else if cols.probationYrs then coerceFill row.probationYrs * 365
  else 0

/-- `CommunityControl_Days`: same column-presence priority over the
`ComCntrl_*` columns (app.py lines 90-97). -/
def communityControlDaysOf (cols : RawCols) (row : RawRow) : ℚ :=
  if cols.comCntrlDays then coerceFill row.comCntrlDays
  else if cols.comCntrlMths then coerceFill row.comCntrlMths * 30
  else if cols.comCntrlYrs then coerceFill row.comCntrlYrs * 365
  else 0

/-- `CommunityService_Hours` (app.py lines 100-103). -/
def communityServiceHoursOf (cols : RawCols) (row : RawRow) : ℚ :=
  if cols.communityService then coerceFill row.communityService else 0

/-- The final cleanup of the judge-name column (app.py line 123):
`replace` of the exact values "nan", "NaN" and the empty string by
"Unknown". -/
def normalizeJudge (raw : String) : String :=
  if raw = "nan" ∨ raw = "NaN" ∨ raw = "" then "Unknown" else raw

/-- `Judge_Full_Name` derivation (app.py lines 114-123): concatenation of the
cleaned first name, the middle initial with NaN filled by the empty string,
and the cleaned last name, trimmed, when all three part columns exist; else
the cleaned combined `Judge` column; else the literal "Unknown"; finally the
`replace` cleanup.  The first and last name columns are in `text_columns` and
hence cleaned; `Judge_Middle_Intial` is not, it only gets `.fillna(empty)`. -/
def judgeFullNameOf (cols : RawCols) (row : RawRow) : String :=
  normalizeJudge
    (if cols.judgeFirstName && cols.judgeMiddleInitial && cols.judgeLastName then
      stripStr (cleanText row.judgeFirstName ++ " " ++ row.judgeMiddleInitial.getD ""
        ++ " " ++ cleanText row.judgeLastName)
    else if cols.judge then cleanText row.judge
    else "Unknown")

/-- One prepared record: the columns of the prepared DataFrame that the
dashboard reads downstream. -/
structure CaseRecord where
  caseNumber : Option String
  judgeFullName : String
  chargeOffenseDescription : String
  statute : String
  statuteDescription : String
  dispositionDescription : String
  raceTier1 : String
  gender : String
  jailDays : ℚ
  probationDaysClean : ℚ
  communityControlDays : ℚ
  communityServiceHours : ℚ
  hasSentence : Bool
deriving DecidableEq

/-- The per-row part of `load_data`'s cleaning and derivation pass
(app.py lines 60-123). -/
def prepareRow (cols : RawCols) (row : RawRow) : CaseRecord :=
  let jail := jailDaysOf cols row
  let prob := probationDaysCleanOf cols row
  let cc := communityControlDaysOf cols row
  let cs := communityServiceHoursOf cols row
  { caseNumber := row.caseNumber
    judgeFullName := judgeFullNameOf cols row
    chargeOffenseDescription := cleanText row.chargeOffenseDescription
    statute := cleanText row.statute
    statuteDescription := cleanText row.statuteDescription
    dispositionDescription := cleanText row.dispositionDescription
    raceTier1 := cleanText row.raceTier1
    gender := cleanText row.gender
    jailDays := jail
    probationDaysClean := prob
    communityControlDays := cc
    communityServiceHours := cs
    hasSentence :=
      decide (0 < jail) || decide (0 < prob) || decide (0 < cc) || decide (0 < cs) }

/-- The cleaning/derivation pass applied to a whole table. -/
def prepare (cols : RawCols) (rows : List RawRow) : List CaseRecord :=
  rows.map (prepareRow cols)

/-- First fixture record of `create_sample_data` (app.py lines 132-164). -/
def sample1 : CaseRecord :=
  { caseNumber := some "SAMPLE001"
    judgeFullName := "John Smith"
    chargeOffenseDescription := "POSSESSION OF FIREARM BY CONVICTED FELON"
    statute := "790.23", statuteDescription := "Firearm Violations"
    dispositionDescription := "Adjudicated Guilty"
    raceTier1 := "B", gender := "M"
    jailDays := 365, probationDaysClean := 0
    communityControlDays := 0, communityServiceHours := 0
    hasSentence := true }

/-- Second fixture record. -/
def sample2 : CaseRecord :=
  { caseNumber := some "SAMPLE002"
    judgeFullName := "Mary Johnson"
    chargeOffenseDescription := "BATTERY ON LAW ENFORCEMENT OFFICER"
    statute := "784.07", statuteDescription := "Battery"
    dispositionDescription := "Adjudicated Guilty"
    raceTier1 := "W", gender := "F"
    jailDays := 0, probationDaysClean := 730
    communityControlDays := 0, communityServiceHours := 100
    hasSentence := true }

/-- Third fixture record. -/
def sample3 : CaseRecord :=
  { caseNumber := some "SAMPLE003"
    judgeFullName := "John Smith"
    chargeOffenseDescription := "DRIVING UNDER THE INFLUENCE"
    statute := "316.193", statuteDescription := "DUI"
    dispositionDescription := "Adjudicated Guilty"
    raceTier1 := "H", gender := "M"
    jailDays := 30, probationDaysClean := 365
    communityControlDays := 0, communityServiceHours := 50
    hasSentence := true }

/-- Fourth fixture record. -/
def sample4 : CaseRecord :=
  { caseNumber := some "SAMPLE004"
    judgeFullName := "Robert Brown"
    chargeOffenseDescription := "POSSESSION OF CONTROLLED SUBSTANCE"
    statute := "893.13", statuteDescription := "Drug Possession"
    dispositionDescription := "Adjudicated Guilty"
    raceTier1 := "B", gender := "F"
    jailDays := 180, probationDaysClean := 365
    communityControlDays := 180, communityServiceHours := 40
    hasSentence := true }

/-- Fifth fixture record. -/
def sample5 : CaseRecord :=
  { caseNumber := some "SAMPLE005"
    judgeFullName := "Mary Johnson"
    chargeOffenseDescription := "THEFT OF MOTOR VEHICLE"
    statute := "812.014", statuteDescription := "Theft"
    dispositionDescription := "Nolle Prosequi"
    raceTier1 := "W", gender := "M"
    jailDays := 0, probationDaysClean := 1095
    communityControlDays := 0, communityServiceHours := 200
    hasSentence := true }

/-- `create_sample_data` (app.py lines 132-164): the 5-record fixture table. -/
def create_sample_data : List CaseRecord :=
  [sample1, sample2, sample3, sample4, sample5]

/-- Why `load_data` falls back: the file is missing, or reading/parsing it
raises (unreadable / structurally invalid), or it parses to a table. -/
inductive Source where
  | absent
  | unreadable
  | table (cols : RawCols) (rows : List RawRow)

/-- `load_data` (app.py lines 24-130): absent, unreadable, or empty input
falls back to the fixture table, otherwise the cleaning pass runs. -/
def load_data : Source → List CaseRecord
  | .absent => create_sample_data
  | .unreadable => create_sample_data
  | .table cols rows =>
      if rows.length = 0 then create_sample_data else prepare cols rows

/-- Judge filter (app.py lines 383-384): exact match unless the sentinel
"all" is selected. -/
def applyJudgeFilter (j : String) (t : List CaseRecord) : List CaseRecord :=
  if j ≠ "all" then t.filter (fun r => decide (r.judgeFullName = j)) else t

/-- Charge filter (app.py lines 387-388). -/
def applyChargeFilter (c : String) (t : List CaseRecord) : List CaseRecord :=
  if c ≠ "all" then t.filter (fun r => decide (r.chargeOffenseDescription = c)) else t

/-- Sentence-presence filter (app.py lines 391-394): "with_sentence" keeps
`Has_Sentence == True` rows, "no_sentence" keeps `Has_Sentence == False`
rows, every other value changes nothing. -/
def applySentenceFilter (s : String) (t : List CaseRecord) : List CaseRecord :=
  if s = "with_sentence" then t.filter (fun r => r.hasSentence)
  else if s = "no_sentence" then t.filter (fun r => decide (r.hasSentence = false))
  else t

/-- The three filters in the order `update_dashboard` applies them:
judge, then charge, then sentence presence (app.py lines 380-394). -/
def applyFilters (j c s : String) (t : List CaseRecord) : List CaseRecord :=
  applySentenceFilter s (applyChargeFilter c (applyJudgeFilter j t))

/-- Arithmetic mean of a list of rationals (`Series.mean` over a series with
no NaNs). -/
def listMean (l : List ℚ) : ℚ := l.sum / (l.length : ℚ)

/-- numpy round-half-to-even to an integer, modelled exactly on ℚ. -/
def roundHalfEven (q : ℚ) : ℤ :=
  let f := ⌊q⌋
  let r := q - (f : ℚ)
  if r < 1/2 then f
  else if 1/2 < r then f + 1
  else if f % 2 = 0 then f else f + 1

/-- `.round(1)`: half-to-even at one decimal place. -/
def round1 (q : ℚ) : ℚ := (roundHalfEven (q * 10) : ℚ) / 10

/-- `.round(0)` in the table projection. -/
def round0 (q : ℚ) : ℚ := (roundHalfEven q : ℚ)

/-- The summary-statistics block (app.py lines 397-407).  `none` stands for
the placeholder branch of each guarded f-string: "No data" for the
with-sentence line, "No jail sentences" / "No probation sentences" for the
two averages. -/
structure Summary where
  casesInView : Nat
  casesWithSentences : Option (Nat × ℚ)
  avgJail : Option ℚ
  avgProbation : Option ℚ
deriving DecidableEq

/-- Summary statistics of the filtered set (app.py lines 397-407): the two
averages are taken only over rows whose field is strictly positive. -/
def summaryStats (f : List CaseRecord) : Summary :=
  let withS := f.filter (fun r => r.hasSentence)
  let jailPos := f.filter (fun r => decide (0 < r.jailDays))
  let probPos := f.filter (fun r => decide (0 < r.probationDaysClean))
  { casesInView := f.length
    casesWithSentences :=
      if 0 < f.length then
        some (withS.length, (withS.length : ℚ) / (f.length : ℚ) * 100)
      else none
    avgJail :=
      if 0 < jailPos.length then some (listMean (jailPos.map (fun r => r.jailDays)))
      else none
    avgProbation :=
      if 0 < probPos.length then
        some (listMean (probPos.map (fun r => r.probationDaysClean)))
      else none }

/-- A distribution figure: a histogram over the strictly-positive values of
one field with a fixed bin count, or the "no sentences of this type"
annotation (app.py lines 410-487). -/
inductive Dist where
  | hist (values : List ℚ) (nbins : Nat)
  | placeholder
deriving DecidableEq

/-- One distribution: filter the field's strictly-positive values, histogram
them when any exist, placeholder otherwise. -/
def distOf (field : CaseRecord → ℚ) (nbins : Nat) (f : List CaseRecord) : Dist :=
  let vals := (f.filter (fun r => decide (0 < field r))).map field
  if 0 < vals.length then .hist vals nbins else .placeholder

/-- One row of a `groupby(key).agg(means, count)` result (app.py lines
492-499 / 516-523): per-group means of the four numeric fields rounded to one
decimal, and the count of non-null `CaseNumber` cells in the group. -/
structure GroupStats where
  key : String
  meanJail : ℚ
  meanProbation : ℚ
  meanCommunityControl : ℚ
  meanCommunityService : ℚ
  count : Nat
deriving DecidableEq

/-- Descending-count order on aggregation groups
(`sort_values(ascending = False)` by the count column). -/
def countGE (a b : GroupStats) : Prop := b.count ≤ a.count

instance : DecidableRel countGE := fun a b => Nat.decLe b.count a.count

instance : IsTotal GroupStats countGE :=
  ⟨fun a b => Nat.le_total b.count a.count⟩

instance : IsTrans GroupStats countGE :=
  ⟨fun _ _ _ hab hbc => Nat.le_trans hbc hab⟩

/-- Descending-count order on (judge, count) pairs for `value_counts`. -/
def pairCountGE (a b : String × Nat) : Prop := b.2 ≤ a.2

instance : DecidableRel pairCountGE := fun a b => Nat.decLe b.2 a.2

instance : IsTotal (String × Nat) pairCountGE :=
  ⟨fun a b => Nat.le_total b.2 a.2⟩

instance : IsTrans (String × Nat) pairCountGE :=
  ⟨fun _ _ _ hab hbc => Nat.le_trans hbc hab⟩

/-- The distinct values of a list, first occurrence kept: the group keys of a
`groupby` over a column with no NaNs. -/
def dedupFirst : List String → List String
  | [] => []
  | k :: ks => k :: dedupFirst (ks.filter (fun x => decide (x ≠ k)))
termination_by l => l.length
decreasing_by
  exact Nat.lt_succ_of_le (List.length_filter_le _ _)

/-- The aggregation row of one group: means of the four numeric fields over
the rows whose key matches, rounded to one decimal, plus the non-null
`CaseNumber` count (`agg(mean, mean, mean, mean, count).round(1)`). -/
def groupStatsFor (key : CaseRecord → String) (k : String) (f : List CaseRecord) :
    GroupStats :=
  let g := f.filter (fun r => decide (key r = k))
  { key := k
    meanJail := round1 (listMean (g.map (fun r => r.jailDays)))
    meanProbation := round1 (listMean (g.map (fun r => r.probationDaysClean)))
    meanCommunityControl := round1 (listMean (g.map (fun r => r.communityControlDays)))
    meanCommunityService := round1 (listMean (g.map (fun r => r.communityServiceHours)))
    count := (g.filter (fun r => r.caseNumber.isSome)).length }

/-- `groupby(key).agg(...).round(1).sort_values(count, descending).head(15)`
(app.py lines 492-499 and 516-523). -/
def summaryBy (key : CaseRecord → String) (f : List CaseRecord) : List GroupStats :=
  (List.insertionSort countGE
    ((dedupFirst (f.map key)).map (fun k => groupStatsFor key k f))).take 15

/-- `value_counts().head(20)` over `Judge_Full_Name` (app.py line 541). -/
def topJudgesByCount (f : List CaseRecord) : List (String × Nat) :=
  (List.insertionSort pairCountGE
    ((dedupFirst (f.map (fun r => r.judgeFullName))).map
      (fun k => (k, (f.filter (fun r => decide (r.judgeFullName = k))).length)))).take 20

/-- The comparison figure: per-charge breakdown, per-judge breakdown, top
judges by case count, or the "No data to display" annotation
(app.py lines 490-554). -/
inductive Comparison where
  | byCharge (groups : List GroupStats)
  | byJudge (groups : List GroupStats)
  | topJudges (counts : List (String × Nat))
  | placeholder
deriving DecidableEq

/-- Comparison-chart selection (app.py lines 490-554): per-charge breakdown
when a specific judge is selected and rows remain; else per-judge breakdown
when a specific charge is selected and rows remain; else top-20 judges when
rows remain; else the placeholder. -/
def comparisonChart (j c : String) (f : List CaseRecord) : Comparison :=
  if j ≠ "all" ∧ 0 < f.length then
    .byCharge (summaryBy (fun r => r.chargeOffenseDescription) f)
  else if c ≠ "all" ∧ 0 < f.length then
    .byJudge (summaryBy (fun r => r.judgeFullName) f)
  else if 0 < f.length then .topJudges (topJudgesByCount f)
  else .placeholder

/-- One row of the detail table (app.py lines 556-565): the fixed column
projection with the four numeric fields rounded to whole units. -/
structure TableRow where
  judgeFullName : String
  chargeOffenseDescription : String
  statute : String
  jailDays : ℚ
  probationDaysClean : ℚ
  communityControlDays : ℚ
  communityServiceHours : ℚ
  raceTier1 : String
  hasSentence : Bool
deriving DecidableEq

/-- The projection of one record onto the table columns. -/
def toTableRow (r : CaseRecord) : TableRow :=
  { judgeFullName := r.judgeFullName
    chargeOffenseDescription := r.chargeOffenseDescription
    statute := r.statute
    jailDays := round0 r.jailDays
    probationDaysClean := round0 r.probationDaysClean
    communityControlDays := round0 r.communityControlDays
    communityServiceHours := round0 r.communityServiceHours
    raceTier1 := r.raceTier1
    hasSentence := r.hasSentence }

/-- Table data (app.py lines 556-567): the projected rows when the filtered
set is non-empty (the projection columns always exist in a prepared table),
else the empty list. -/
def tableData (f : List CaseRecord) : List TableRow :=
  if 0 < f.length then f.map toTableRow else []

/-- The seven outputs of one run of the callback, in source order. -/
structure DashboardOutput where
  summary : Summary
  jailDist : Dist
  probationDist : Dist
  communityControlDist : Dist
  communityServiceDist : Dist
  comparison : Comparison
  tableRows : List TableRow
deriving DecidableEq

/-- `update_dashboard` (app.py lines 375-569): filter, then compute every
output from the filtered set. -/
def update_dashboard (j c s : String) (t : List CaseRecord) : DashboardOutput :=
  let f := applyFilters j c s t
  { summary := summaryStats f
    jailDist := distOf (fun r => r.jailDays) 30 f
    probationDist := distOf (fun r => r.probationDaysClean) 30 f
    communityControlDist := distOf (fun r => r.communityControlDays) 20 f
    communityServiceDist := distOf (fun r => r.communityServiceHours) 20 f
    comparison := comparisonChart j c f
    tableRows := tableData f }

/-- A raw row with every cell null, the base for concrete test rows. -/
def blankRow : RawRow :=
  { caseNumber := none, judge := none, judgeFirstName := none
    judgeMiddleInitial := none, judgeLastName := none
    chargeOffenseDescription := none, statute := none, statuteDescription := none
    dispositionDescription := none, raceTier1 := none, gender := none
    maxCnfmntDays := none, probationDays := none, probationMths := none
    probationYrs := none, comCntrlDays := none, comCntrlMths := none
    comCntrlYrs := none, communityService := none }

/-- A column set with every conditionally-read column absent. -/
def noCols : RawCols :=
  { maxCnfmntDays := false, probationDays := false, probationMths := false
    probationYrs := false, comCntrlDays := false, comCntrlMths := false
    comCntrlYrs := false, communityService := false, judge := false
    judgeFirstName := false, judgeMiddleInitial := false, judgeLastName := false }

/-- A column set with every conditionally-read column present. -/
def allCols : RawCols :=
  { maxCnfmntDays := true, probationDays := true, probationMths := true
    probationYrs := true, comCntrlDays := true, comCntrlMths := true
    comCntrlYrs := true, communityService := true, judge := true
    judgeFirstName := true, judgeMiddleInitial := true, judgeLastName := true }

/-- Columns for the unit-priority test: both a probation days column and a
probation months column present. -/
def colsDaysAndMths : RawCols :=
  { noCols with probationDays := true, probationMths := true, judge := true }

/-- Row for the unit-priority test: probation days 100 and probation
months 2 both populated. -/
def rowDaysAndMths : RawRow :=
  { blankRow with
    judge := some "Jane Roe", probationDays := some 100, probationMths := some 2 }

/-- Columns for the negative-value test: only `MaxCnfmnt_Days` present. -/
def colsJailOnly : RawCols := { noCols with maxCnfmntDays := true }

/-- Row with a negative confinement value. -/
def rowNegJail : RawRow := { blankRow with maxCnfmntDays := some (-5) }

/-- Columns for the name-concatenation test: the three name-part columns
present. -/
def colsNameParts : RawCols :=
  { noCols with
    judgeFirstName := true, judgeMiddleInitial := true, judgeLastName := true }

/-- Row with a padded first name, a null middle initial, and a last name. -/
def rowNameParts : RawRow :=
  { blankRow with judgeFirstName := some " John ", judgeLastName := some "Smith" }

/-- A prepared record with a chosen judge and jail-days value and no other
sentence, for the zero-exclusion mean test. -/
def plainRec (judge : String) (jail : ℚ) : CaseRecord :=
  { caseNumber := some "C1", judgeFullName := judge
    chargeOffenseDescription := "THEFT", statute := "812.014"
    statuteDescription := "Theft", dispositionDescription := "Adjudicated Guilty"
    raceTier1 := "W", gender := "M"
    jailDays := jail, probationDaysClean := 0
    communityControlDays := 0, communityServiceHours := 0
    hasSentence := decide (0 < jail) }

/-- The shape facts of one `groupby → agg → sort → head(15)` result: at most
15 groups, descending count order, and every group row is the aggregation of
the matching filtered rows. -/
def summarySorted15 (key : CaseRecord → String) (f : List CaseRecord) : Prop :=
  (summaryBy key f).length ≤ 15 ∧ List.Sorted countGE (summaryBy key f) ∧
  ∀ g ∈ summaryBy key f, g = groupStatsFor key g.key f

/-! Projection lemmas for `prepareRow`. -/

lemma prepareRow_jailDays (cols : RawCols) (row : RawRow) :
    (prepareRow cols row).jailDays = jailDaysOf cols row := rfl

lemma prepareRow_probationDaysClean (cols : RawCols) (row : RawRow) :
    (prepareRow cols row).probationDaysClean = probationDaysCleanOf cols row := rfl

lemma prepareRow_communityControlDays (cols : RawCols) (row : RawRow) :
    (prepareRow cols row).communityControlDays = communityControlDaysOf cols row := rfl

lemma prepareRow_communityServiceHours (cols : RawCols) (row : RawRow) :
    (prepareRow cols row).communityServiceHours = communityServiceHoursOf cols row := rfl

lemma prepareRow_hasSentence (cols : RawCols) (row : RawRow) :
    (prepareRow cols row).hasSentence =
      (decide (0 < jailDaysOf cols row) || decide (0 < probationDaysCleanOf cols row) ||
       decide (0 < communityControlDaysOf cols row) ||
       decide (0 < communityServiceHoursOf cols row)) := rfl

lemma prepareRow_judgeFullName (cols : RawCols) (row : RawRow) :
    (prepareRow cols row).judgeFullName = judgeFullNameOf cols row := rfl

/-- A coerced-and-filled cell is non-negative when its value (if any) is. -/
lemma coerceFill_nonneg {o : Option ℚ} (h : ∀ q ∈ o, 0 ≤ q) : 0 ≤ coerceFill o := by
  cases o with
  | none => simp [coerceFill]
  | some q => simpa [coerceFill] using h q rfl

/-- The `replace` cleanup never returns the empty string. -/
lemma normalizeJudge_ne_empty (raw : String) : normalizeJudge raw ≠ "" := by
  unfold normalizeJudge
  by_cases h : raw = "nan" ∨ raw = "NaN" ∨ raw = ""
  · rw [if_pos h]; decide
  · rw [if_neg h]; intro he; exact h (Or.inr (Or.inr he))

/-- C1: for every prepared record, the derived boolean `Has_Sentence` is true
iff at least one of the four derived numeric fields (`Jail_Days`,
`Probation_Days_Clean`, `CommunityControl_Days`, `CommunityService_Hours`)
is strictly greater than zero; in particular all four zero gives false and
exactly one field equal to 1 gives true. -/
theorem has_sentence_iff_any_positive (cols : RawCols) (row : RawRow) :
    (prepareRow cols row).hasSentence = true ↔
      (0 < (prepareRow cols row).jailDays ∨
       0 < (prepareRow cols row).probationDaysClean ∨
       0 < (prepareRow cols row).communityControlDays ∨
       0 < (prepareRow cols row).communityServiceHours) := by
  rw [prepareRow_hasSentence, prepareRow_jailDays, prepareRow_probationDaysClean,
    prepareRow_communityControlDays, prepareRow_communityServiceHours]
  simp [or_assoc]

/-- C2: the derived `Probation_Days_Clean` comes from the days column when
present, else the months column times 30, else the years column times 365,
else 0 — exactly one source unit is honored, in that priority order, so with
both a days and a months column present the days value is used and the months
value ignored; `CommunityControl_Days` follows the same rule over its own
columns. -/
theorem probation_unit_priority (cols : RawCols) (row : RawRow) :
    ((cols.probationDays = true →
        (prepareRow cols row).probationDaysClean = coerceFill row.probationDays) ∧
     (cols.probationDays = false → cols.probationMths = true →
        (prepareRow cols row).probationDaysClean = coerceFill row.probationMths * 30) ∧
     (cols.probationDays = false → cols.probationMths = false →
        cols.probationYrs = true →
        (prepareRow cols row).probationDaysClean = coerceFill row.probationYrs * 365) ∧
     (cols.probationDays = false → cols.probationMths = false →
        cols.probationYrs = false → (prepareRow cols row).probationDaysClean = 0)) ∧
    ((cols.comCntrlDays = true →
        (prepareRow cols row).communityControlDays = coerceFill row.comCntrlDays) ∧
     (cols.comCntrlDays = false → cols.comCntrlMths = true →
        (prepareRow cols row).communityControlDays = coerceFill row.comCntrlMths * 30) ∧
     (cols.comCntrlDays = false → cols.comCntrlMths = false →
        cols.comCntrlYrs = true →
        (prepareRow cols row).communityControlDays = coerceFill row.comCntrlYrs * 365) ∧
     (cols.comCntrlDays = false → cols.comCntrlMths = false →
        cols.comCntrlYrs = false → (prepareRow cols row).communityControlDays = 0)) := by
  rw [prepareRow_probationDaysClean, prepareRow_communityControlDays]
  refine ⟨⟨?_, ?_, ?_, ?_⟩, ⟨?_, ?_, ?_, ?_⟩⟩
  · intro h1; simp [probationDaysCleanOf, h1]
  · intro h1 h2; simp [probationDaysCleanOf, h1, h2]
  · intro h1 h2 h3; simp [probationDaysCleanOf, h1, h2, h3]
  · intro h1 h2 h3; simp [probationDaysCleanOf, h1, h2, h3]
  · intro h1; simp [communityControlDaysOf, h1]
  · intro h1 h2; simp [communityControlDaysOf, h1, h2]
  · intro h1 h2 h3; simp [communityControlDaysOf, h1, h2, h3]
  · intro h1 h2 h3; simp [communityControlDaysOf, h1, h2, h3]

/-- Witness for C2: with both the probation days and months columns present
and the row holding days 100 and months 2, the derived value is the days
value 100 and the months value is ignored. -/
theorem probation_unit_priority_witness :
    colsDaysAndMths.probationDays = true ∧ colsDaysAndMths.probationMths = true ∧
    rowDaysAndMths.probationMths = some 2 ∧
    (prepareRow colsDaysAndMths rowDaysAndMths).probationDaysClean = 100 := by
  refine ⟨rfl, rfl, rfl, ?_⟩
  exact ((probation_unit_priority colsDaysAndMths rowDaysAndMths).1.1 rfl).trans (by decide)

/-- C3 counterexample: a raw input with a negative `MaxCnfmnt_Days` value
produces a prepared record whose `Jail_Days` is negative, so the derived
numeric fields are not always ≥ 0. -/
theorem derived_nonneg_counterexample :
    (prepareRow colsJailOnly rowNegJail).jailDays < 0 := by decide

/-- C3 amended: every prepared record's four derived numeric fields are
present and non-null by construction, default to 0 for missing or uncoercible
source values, and are ≥ 0 whenever every source duration value that is
present is ≥ 0 (a negative source value propagates unchanged). -/
theorem derived_fields_nonneg_of_source_nonneg (cols : RawCols) (row : RawRow)
    (h1 : ∀ q ∈ row.maxCnfmntDays, 0 ≤ q) (h2 : ∀ q ∈ row.probationDays, 0 ≤ q)
    (h3 : ∀ q ∈ row.probationMths, 0 ≤ q) (h4 : ∀ q ∈ row.probationYrs, 0 ≤ q)
    (h5 : ∀ q ∈ row.comCntrlDays, 0 ≤ q) (h6 : ∀ q ∈ row.comCntrlMths, 0 ≤ q)
    (h7 : ∀ q ∈ row.comCntrlYrs, 0 ≤ q) (h8 : ∀ q ∈ row.communityService, 0 ≤ q) :
    0 ≤ (prepareRow cols row).jailDays ∧
    0 ≤ (prepareRow cols row).probationDaysClean ∧
    0 ≤ (prepareRow cols row).communityControlDays ∧
    0 ≤ (prepareRow cols row).communityServiceHours ∧
    (row.maxCnfmntDays = none → (prepareRow cols row).jailDays = 0) ∧
    (row.probationDays = none → row.probationMths = none → row.probationYrs = none →
      (prepareRow cols row).probationDaysClean = 0) := by
  rw [prepareRow_jailDays, prepareRow_probationDaysClean,
    prepareRow_communityControlDays, prepareRow_communityServiceHours]
  refine ⟨?_, ?_, ?_, ?_, ?_, ?_⟩
  · unfold jailDaysOf
    split
    · exact coerceFill_nonneg h1
    · exact le_refl 0
  · unfold probationDaysCleanOf
    split
    · exact coerceFill_nonneg h2
    split
    · exact mul_nonneg (coerceFill_nonneg h3) (by norm_num)
    split
    · exact mul_nonneg (coerceFill_nonneg h4) (by norm_num)
    · exact le_refl 0
  · unfold communityControlDaysOf
    split
    · exact coerceFill_nonneg h5
    split
    · exact mul_nonneg (coerceFill_nonneg h6) (by norm_num)
    split
    · exact mul_nonneg (coerceFill_nonneg h7) (by norm_num)
    · exact le_refl 0
  · unfold communityServiceHoursOf
    split
    · exact coerceFill_nonneg h8
    · exact le_refl 0
  · intro hn
    unfold jailDaysOf
    rw [hn]
    split <;> rfl
  · intro hd hm hy
    unfold probationDaysCleanOf
    rw [hd, hm, hy]
    split
    · rfl
    split
    · show coerceFill none * 30 = 0; norm_num [coerceFill]
    split
    · show coerceFill none * 365 = 0; norm_num [coerceFill]
    · rfl

/-- Witness for the amended C3: a table with every duration column present
but every cell null yields all four fields equal to their default 0. -/
theorem derived_fields_nonneg_witness :
    0 ≤ (prepareRow allCols blankRow).jailDays ∧
    (prepareRow allCols blankRow).jailDays = 0 ∧
    (prepareRow allCols blankRow).probationDaysClean = 0 := by
  have h := derived_fields_nonneg_of_source_nonneg allCols blankRow
    (by simp [blankRow]) (by simp [blankRow]) (by simp [blankRow]) (by simp [blankRow])
    (by simp [blankRow]) (by simp [blankRow]) (by simp [blankRow]) (by simp [blankRow])
  exact ⟨h.1, h.2.2.2.2.1 rfl, h.2.2.2.2.2 rfl rfl rfl⟩

/-- C4: `Judge_Full_Name` is the trimmed concatenation of first name, middle
initial and last name when all three part columns exist, else the (trimmed)
combined `Judge` column when it exists, else the literal "Unknown"; a
resulting "nan", "NaN" or empty string is normalized to "Unknown", so the
derived name is never empty. -/
theorem judge_full_name_rule (cols : RawCols) (row : RawRow) :
    ((cols.judgeFirstName = true → cols.judgeMiddleInitial = true →
        cols.judgeLastName = true →
        (prepareRow cols row).judgeFullName =
          normalizeJudge (stripStr (cleanText row.judgeFirstName ++ " " ++
            row.judgeMiddleInitial.getD "" ++ " " ++ cleanText row.judgeLastName))) ∧
     (¬(cols.judgeFirstName = true ∧ cols.judgeMiddleInitial = true ∧
          cols.judgeLastName = true) → cols.judge = true →
        (prepareRow cols row).judgeFullName = normalizeJudge (cleanText row.judge)) ∧
     (¬(cols.judgeFirstName = true ∧ cols.judgeMiddleInitial = true ∧
          cols.judgeLastName = true) → cols.judge = false →
        (prepareRow cols row).judgeFullName = "Unknown")) ∧
    (prepareRow cols row).judgeFullName ≠ "" := by
  rw [prepareRow_judgeFullName]
  refine ⟨⟨?_, ?_, ?_⟩, ?_⟩
  · intro hf hm hl
    simp [judgeFullNameOf, hf, hm, hl]
  · intro hn hj
    have hb : (cols.judgeFirstName && cols.judgeMiddleInitial && cols.judgeLastName)
        = false := by
      cases hf : cols.judgeFirstName <;> cases hm : cols.judgeMiddleInitial <;>
        cases hl : cols.judgeLastName <;> simp_all
    simp [judgeFullNameOf, hb, hj]
  · intro hn hj
    have hb : (cols.judgeFirstName && cols.judgeMiddleInitial && cols.judgeLastName)
        = false := by
      cases hf : cols.judgeFirstName <;> cases hm : cols.judgeMiddleInitial <;>
        cases hl : cols.judgeLastName <;> simp_all
    simp [judgeFullNameOf, hb, hj, normalizeJudge]
  · unfold judgeFullNameOf
    exact normalizeJudge_ne_empty _

/-- Witness for C4: three name-part columns present, first name " John "
(padded), null middle initial, last name "Smith" — the derived name is the
trimmed concatenation "John  Smith" and it is non-empty. -/
theorem judge_full_name_rule_witness :
    (prepareRow colsNameParts rowNameParts).judgeFullName = "John  Smith" ∧
    (prepareRow colsNameParts rowNameParts).judgeFullName ≠ "" := by
  have h := judge_full_name_rule colsNameParts rowNameParts
  exact ⟨(h.1.1 rfl rfl rfl).trans (by decide), h.2⟩

/-- Filtering twice by the same predicate filters once. -/
lemma filter_idem (p : CaseRecord → Bool) (f : List CaseRecord) :
    (f.filter p).filter p = f.filter p := by
  rw [List.filter_filter]
  simp only [Bool.and_self]

/-- C6: the displayed mean jail days is the mean of `Jail_Days` over only the
rows with `Jail_Days` strictly positive (zero rows excluded from numerator
and denominator), and likewise for probation; a filtered set with jail values
0, 0, 10 displays a mean of 10. -/
theorem mean_excludes_zero_rows (f : List CaseRecord) :
    (summaryStats f).avgJail =
      (summaryStats (f.filter (fun r => decide (0 < r.jailDays)))).avgJail ∧
    (summaryStats f).avgProbation =
      (summaryStats (f.filter (fun r => decide (0 < r.probationDaysClean)))).avgProbation ∧
    (summaryStats [plainRec "A" 0, plainRec "A" 0, plainRec "A" 10]).avgJail = some 10 := by
  refine ⟨?_, ?_, ?_⟩
  · simp only [summaryStats, filter_idem]
  · simp only [summaryStats, filter_idem]
  · norm_num [summaryStats, plainRec, listMean]

/-- C9: filtering by judge and then by charge yields the same row set as
filtering by charge and then by judge, for every table and every pair of
selections. -/
theorem judge_charge_filter_comm (t : List CaseRecord) (x y : String) :
    applyJudgeFilter x (applyChargeFilter y t) =
      applyChargeFilter y (applyJudgeFilter x t) := by
  unfold applyJudgeFilter applyChargeFilter
  rcases eq_or_ne x "all" with hx | hx <;> rcases eq_or_ne y "all" with hy | hy <;>
    simp [hx, hy, List.filter_filter]
  congr 1
  funext r
  exact Bool.and_comm _ _

/-- A sentence selection other than "with_sentence" and "no_sentence" leaves
the row set unchanged. -/
lemma applySentenceFilter_eq_of_other {s : String} (t : List CaseRecord)
    (h1 : s ≠ "with_sentence") (h2 : s ≠ "no_sentence") :
    applySentenceFilter s t = t := by
  unfold applySentenceFilter
  rw [if_neg h1, if_neg h2]

/-- C10: for every sentence selection other than "with_sentence" and
"no_sentence" — any out-of-domain string, not only "all" — the cycle
produces exactly the output it produces for "all". -/
theorem sentence_filter_out_of_domain (t : List CaseRecord) (j c s : String)
    (h1 : s ≠ "with_sentence") (h2 : s ≠ "no_sentence") :
    update_dashboard j c s t = update_dashboard j c "all" t := by
  have hf : applyFilters j c s t = applyFilters j c "all" t := by
    unfold applyFilters
    rw [applySentenceFilter_eq_of_other _ h1 h2,
      applySentenceFilter_eq_of_other _ (by decide) (by decide)]
  unfold update_dashboard
  rw [hf]

/-- Witness for C10: the arbitrary selection "bogus" behaves as "all" on the
fixture table. -/
theorem sentence_filter_out_of_domain_witness :
    update_dashboard "all" "all" "bogus" create_sample_data =
      update_dashboard "all" "all" "all" create_sample_data :=
  sentence_filter_out_of_domain create_sample_data "all" "all" "bogus"
    (by decide) (by decide)

/-- C7: when the filtered set is empty the cycle returns the placeholder in
every summary slot that is guarded, the "no sentences" placeholder in all
four distributions, the "no data" placeholder in the comparison chart, and an
empty table row list (and, being a total function, raises nothing). -/
theorem empty_filter_placeholders (t : List CaseRecord) (j c s : String)
    (h : applyFilters j c s t = []) :
    (update_dashboard j c s t).summary.casesInView = 0 ∧
    (update_dashboard j c s t).summary.casesWithSentences = none ∧
    (update_dashboard j c s t).summary.avgJail = none ∧
    (update_dashboard j c s t).summary.avgProbation = none ∧
    (update_dashboard j c s t).jailDist = Dist.placeholder ∧
    (update_dashboard j c s t).probationDist = Dist.placeholder ∧
    (update_dashboard j c s t).communityControlDist = Dist.placeholder ∧
    (update_dashboard j c s t).communityServiceDist = Dist.placeholder ∧
    (update_dashboard j c s t).comparison = Comparison.placeholder ∧
    (update_dashboard j c s t).tableRows = [] := by
  simp [update_dashboard, h, summaryStats, distOf, comparisonChart, tableData]

/-- Witness for C7: the judge selection "NoSuchJudge" matches no fixture row,
and the comparison chart and table degrade to their placeholders. -/
theorem empty_filter_placeholders_witness :
    (update_dashboard "NoSuchJudge" "all" "all" create_sample_data).comparison =
      Comparison.placeholder ∧
    (update_dashboard "NoSuchJudge" "all" "all" create_sample_data).tableRows = [] := by
  have h := empty_filter_placeholders create_sample_data "NoSuchJudge" "all" "all"
    (by decide)
  exact ⟨h.2.2.2.2.2.2.2.2.1, h.2.2.2.2.2.2.2.2.2⟩

/-- C8: an absent, unreadable, or zero-row source makes `load_data` return
exactly the 5-record fixture table, whose records all satisfy the data-model
invariants: non-negative (hence non-null) derived numeric fields, a
`Has_Sentence` flag consistent with the four fields, and a non-empty judge
name; `load_data` is a total function, so no exception escapes. -/
theorem fixture_fallback :
    load_data Source.absent = create_sample_data ∧
    load_data Source.unreadable = create_sample_data ∧
    (∀ cols : RawCols, load_data (Source.table cols []) = create_sample_data) ∧
    create_sample_data.length = 5 ∧
    (∀ r ∈ create_sample_data,
      0 ≤ r.jailDays ∧ 0 ≤ r.probationDaysClean ∧ 0 ≤ r.communityControlDays ∧
      0 ≤ r.communityServiceHours ∧
      (r.hasSentence = true ↔ (0 < r.jailDays ∨ 0 < r.probationDaysClean ∨
        0 < r.communityControlDays ∨ 0 < r.communityServiceHours)) ∧
      r.judgeFullName ≠ "") :=
  ⟨rfl, rfl, fun _ => rfl, rfl, by decide⟩

/-- Witness for C8: the zero-row fallback at a concrete column set, and the
invariants at the first fixture record. -/
theorem fixture_fallback_witness :
    load_data (Source.table allCols []) = create_sample_data ∧
    sample1.judgeFullName ≠ "" := by
  have h := fixture_fallback
  exact ⟨h.2.2.1 allCols, (h.2.2.2.2 sample1 (by decide)).2.2.2.2.2⟩

/-- A `groupby → sort → head(15)` result has at most 15 groups. -/
lemma summaryBy_length_le (key : CaseRecord → String) (f : List CaseRecord) :
    (summaryBy key f).length ≤ 15 :=
  List.length_take_le _ _

/-- A `groupby → sort → head(15)` result is in descending count order. -/
lemma summaryBy_sorted (key : CaseRecord → String) (f : List CaseRecord) :
    List.Sorted countGE (summaryBy key f) := by
  unfold summaryBy
  exact List.Pairwise.sublist (List.take_sublist _ _)
    (List.sorted_insertionSort countGE _)

/-- Every group row of a `groupby → sort → head(15)` result is the
aggregation of the rows matching its own key. -/
lemma summaryBy_mem_eq (key : CaseRecord → String) (f : List CaseRecord)
    (g : GroupStats) (hg : g ∈ summaryBy key f) :
    g = groupStatsFor key g.key f := by
  unfold summaryBy at hg
  have h1 := List.mem_of_mem_take hg
  rw [List.mem_insertionSort] at h1
  obtain ⟨k, _, he⟩ := List.mem_map.mp h1
  rw [← he]
  rfl

/-- The sentence filter only removes rows. -/
lemma mem_of_mem_applySentenceFilter {s : String} {t : List CaseRecord}
    {r : CaseRecord} (h : r ∈ applySentenceFilter s t) : r ∈ t := by
  unfold applySentenceFilter at h
  split at h
  · exact List.mem_of_mem_filter h
  · split at h
    · exact List.mem_of_mem_filter h
    · exact h

/-- Rows surviving a specific charge filter carry that charge. -/
lemma charge_eq_of_mem_applyChargeFilter {c : String} {t : List CaseRecord}
    {r : CaseRecord} (hc : c ≠ "all") (h : r ∈ applyChargeFilter c t) :
    r.chargeOffenseDescription = c := by
  unfold applyChargeFilter at h
  rw [if_pos hc] at h
  exact of_decide_eq_true (List.mem_filter.mp h).2

/-- C5: the comparative aggregate is chosen by fixed precedence: a specific
judge with a non-empty filtered set gives the per-charge breakdown (per-group
means of the four numeric fields plus row count, sorted by count descending,
top 15 kept); else a specific charge with a non-empty filtered set gives the
identical aggregation grouped by judge; else the top judges by raw case count
when non-empty, and the "no data" placeholder when empty.  With both a judge
and a charge selected the per-charge mode wins, over rows already narrowed by
the charge filter. -/
theorem comparison_mode_precedence (t : List CaseRecord) (j c s : String) :
    (j ≠ "all" → applyFilters j c s t ≠ [] →
      comparisonChart j c (applyFilters j c s t) =
        Comparison.byCharge
          (summaryBy (fun r => r.chargeOffenseDescription) (applyFilters j c s t)) ∧
      summarySorted15 (fun r => r.chargeOffenseDescription) (applyFilters j c s t) ∧
      (c ≠ "all" → ∀ r ∈ applyFilters j c s t, r.chargeOffenseDescription = c)) ∧
    (j = "all" → c ≠ "all" → applyFilters j c s t ≠ [] →
      comparisonChart j c (applyFilters j c s t) =
        Comparison.byJudge
          (summaryBy (fun r => r.judgeFullName) (applyFilters j c s t)) ∧
      summarySorted15 (fun r => r.judgeFullName) (applyFilters j c s t)) ∧
    (j = "all" → c = "all" → applyFilters j c s t ≠ [] →
      comparisonChart j c (applyFilters j c s t) =
        Comparison.topJudges (topJudgesByCount (applyFilters j c s t))) ∧
    (applyFilters j c s t = [] →
      comparisonChart j c (applyFilters j c s t) = Comparison.placeholder) := by
  refine ⟨?_, ?_, ?_, ?_⟩
  · intro hj hne
    have hlen : 0 < (applyFilters j c s t).length := List.length_pos.mpr hne
    refine ⟨?_, ⟨summaryBy_length_le _ _, summaryBy_sorted _ _,
      fun g hg => summaryBy_mem_eq _ _ g hg⟩, ?_⟩
    · unfold comparisonChart
      rw [if_pos ⟨hj, hlen⟩]
    · intro hc r hr
      exact charge_eq_of_mem_applyChargeFilter hc (mem_of_mem_applySentenceFilter hr)
  · intro hj hc hne
    have hlen : 0 < (applyFilters j c s t).length := List.length_pos.mpr hne
    refine ⟨?_, summaryBy_length_le _ _, summaryBy_sorted _ _,
      fun g hg => summaryBy_mem_eq _ _ g hg⟩
    unfold comparisonChart
    rw [if_neg (by simp [hj]), if_pos ⟨hc, hlen⟩]
  · intro hj hc hne
    unfold comparisonChart
    rw [if_neg (by simp [hj]), if_neg (by simp [hc]),
      if_pos (List.length_pos.mpr hne)]
  · intro h
    unfold comparisonChart
    rw [h]
    simp

/-- Witness for C5: with judge "John Smith" and a specific charge both
selected on the fixture table, the filtered set is non-empty, the per-charge
mode wins, and every surviving row carries the selected charge. -/
theorem comparison_mode_precedence_witness :
    comparisonChart "John Smith" "DRIVING UNDER THE INFLUENCE"
        (applyFilters "John Smith" "DRIVING UNDER THE INFLUENCE" "all"
          create_sample_data) =
      Comparison.byCharge (summaryBy (fun r => r.chargeOffenseDescription)
        (applyFilters "John Smith" "DRIVING UNDER THE INFLUENCE" "all"
          create_sample_data)) ∧
    (∀ r ∈ applyFilters "John Smith" "DRIVING UNDER THE INFLUENCE" "all"
        create_sample_data,
      r.chargeOffenseDescription = "DRIVING UNDER THE INFLUENCE") := by
  have h := (comparison_mode_precedence create_sample_data "John Smith"
    "DRIVING UNDER THE INFLUENCE" "all").1 (by decide) (by decide)
  exact ⟨h.1, h.2.2 (by decide)⟩

end JudgeDispo
